import Mathlib

/-!
Shallow embedding of the `v2ex-api` Rust crate (`src/lib.rs`): a typed
client for the V2EX REST API with a rate-limit tracker.  HTTP transport
and JSON byte-level parsing are external boundaries; JSON documents are
modelled as an abstract syntax tree and serde-derived decoding as
recursive functions on it.  Machine integers (`u16`, `u32`, `i64`, …)
are modelled as `Nat`/`Int` with explicit range checks where the Rust
code checks ranges (string parsing, JSON number decoding).
-/

namespace V2ex

/-- JSON documents, as produced by `serde_json`.  Numbers are restricted
to integers: every numeric field in this crate's schemas is an integer
type, and `serde` rejects fractional values for them. -/
inductive Json where
  | null : Json
  | bool (b : Bool) : Json
  | num (n : Int) : Json
  | str (s : String) : Json
  | arr (elems : List Json) : Json
  | obj (fields : List (String × Json)) : Json

/-- Look up a key in a JSON object's field list (first match). -/
def jGet (fields : List (String × Json)) (key : String) : Option Json :=
  (fields.find? (fun p => p.1 == key)).map (·.2)

/-- Parse a non-empty all-digit character list to its value, as the digit
loop of Rust's integer `FromStr` does. -/
def parseDigits : List Char → Option Nat
  | [] => none
  | cs =>
    if cs.all Char.isDigit then
      some (cs.foldl (fun acc c => acc * 10 + (c.toNat - 48)) 0)
    else none

/-- Rust `str::parse::<u16>()`: an optional leading `+`, then one or more
ASCII digits, value at most 65535 (checked accumulation overflow is
equivalent to a final range check). -/
def parseU16 (s : String) : Option Nat :=
  let cs := match s.data with
    | '+' :: rest => rest
    | cs => cs
  match parseDigits cs with
  | some n => if n ≤ 65535 then some n else none
  | none => none

/-- Rust `str::parse::<i64>()`: an optional sign, then one or more ASCII
digits, value in `[-2^63, 2^63 - 1]`. -/
def parseI64 (s : String) : Option Int :=
  match s.data with
  | '-' :: rest =>
    match parseDigits rest with
    | some n => if (n : Int) ≤ 2 ^ 63 then some (-(n : Int)) else none
    | none => none
  | '+' :: rest =>
    match parseDigits rest with
    | some n => if (n : Int) ≤ 2 ^ 63 - 1 then some (n : Int) else none
    | none => none
  | cs =>
    match parseDigits cs with
    | some n => if (n : Int) ≤ 2 ^ 63 - 1 then some (n : Int) else none
    | none => none

/-- A response header collection.  Values are the header values as
strings; `HeaderValue::to_str` failures (non-ASCII bytes) are absorbed
into parse failure, which is behaviour-equivalent for the numeric
rate-limit cells since any string accepted by the integer parsers is
visible ASCII. -/
abbrev HeaderMap := List (String × String)

/-- ASCII lower-casing of a character's code point, the case folding
HTTP header names use. -/
def lowerN (c : Char) : Nat :=
  if 65 ≤ c.toNat ∧ c.toNat ≤ 90 then c.toNat + 32 else c.toNat

/-- ASCII case-insensitive string comparison, as `HeaderName` equality
behaves. -/
def nameEqCI (a b : String) : Bool :=
  a.data.map lowerN == b.data.map lowerN

/-- `reqwest::header::HeaderMap::get`: case-insensitive name match,
first value wins. -/
def hmGet (h : HeaderMap) (name : String) : Option String :=
  (h.find? (fun p => nameEqCI p.1 name)).map (·.2)

/-- API 域名前缀 (`V2EX_API_DOMAIN`). -/
def V2EX_API_DOMAIN : String := "https://www.v2ex.com/api/v2"

/-- The `Client` state: the three rate-limit tracker cells
(`AtomicU16`, `AtomicU16`, `AtomicI64` in the source).  The immutable
`reqwest` transport handle is an external boundary and carries no
observable state of its own.  `limit` and `remaining` hold `u16` values
(every stored value is ≤ 65535 because `parseU16` enforces it);
`reset` holds an `i64` value. -/
structure Client where
  limit : Nat
  remaining : Nat
  reset : Int
deriving DecidableEq

namespace Client

/-- `Client::new`: builds the transport with the bearer header (out of
scope here) and zero-initialises the three tracker cells. -/
def new (_token : String) : Client :=
  { limit := 0, remaining := 0, reset := 0 }

/-- First block of `Client::set_rate`: the `X-Rate-Limit-Limit` header,
if present and parseable as `u16`, is stored into the `limit` cell. -/
def set_limit (c : Client) (header : HeaderMap) : Client :=
  match hmGet header "X-Rate-Limit-Limit" with
  | some v =>
    match parseU16 v with
    | some limit => { c with limit := limit }
    | none => c
  | none => c

/-- Second block of `Client::set_rate`: the `X-Rate-Limit-Remaining`
header, if present and parseable as `u16`, is stored into the
`remaining` cell. -/
def set_remaining (c : Client) (header : HeaderMap) : Client :=
  match hmGet header "X-Rate-Limit-Remaining" with
  | some v =>
    match parseU16 v with
    | some remaining => { c with remaining := remaining }
    | none => c
  | none => c

/-- Third block of `Client::set_rate`: the `X-Rate-Limit-Reset` header,
if present and parseable as `i64`, is stored into the `reset` cell. -/
def set_reset (c : Client) (header : HeaderMap) : Client :=
  match hmGet header "X-Rate-Limit-Reset" with
  | some v =>
    match parseI64 v with
    | some reset => { c with reset := reset }
    | none => c
  | none => c

/-- `Client::set_rate`: the three header blocks run in sequence, each
updating its own cell independently. -/
def set_rate (c : Client) (header : HeaderMap) : Client :=
  set_reset (set_remaining (set_limit c header) header) header

end Client

/-! ### Request/response schemas (plain data records from `src/lib.rs`) -/

/-- `Status`: 请求处理通用状态 (common request-handling status). -/
structure Status where
  success : Bool
  message : String
deriving DecidableEq

/-- `GetNotificationsRsp`: flattened `Status` only (the `result` payload
is left undefined upstream). -/
structure GetNotificationsRsp where
  status : Status
deriving DecidableEq

/-- `DeleteNotificationRsp`: flattened `Status` only. -/
structure DeleteNotificationRsp where
  status : Status
deriving DecidableEq

/-- `Member`: a member profile; social links, avatars and
`last_modified` are `Option`al. -/
structure Member where
  id : Nat
  username : String
  url : String
  website : Option String
  twitter : Option String
  psn : Option String
  github : Option String
  btc : Option String
  location : Option String
  tagline : Option String
  bio : Option String
  avatar : Option String
  avatar_mini : Option String
  avatar_normal : Option String
  avatar_large : Option String
  created : Int
  last_modified : Option Int
deriving DecidableEq

/-- `GetMemberRsp`: `success` plus a `Member` result; this envelope has
no `message` field. -/
structure GetMemberRsp where
  success : Bool
  result : Member
deriving DecidableEq

/-- `TokenDetails`. -/
structure TokenDetails where
  token : String
  scope : String
  expiration : Int
  good_for_days : Nat
  total_used : Nat
  last_used : Int
  created : Int
deriving DecidableEq

/-- `GetTokenRsp`: flattened `Status` plus `TokenDetails`. -/
structure GetTokenRsp where
  status : Status
  result : TokenDetails
deriving DecidableEq

/-- `Token`: the created token string. -/
structure Token where
  token : String
deriving DecidableEq

/-- `PostTokenRsp`: `success` plus a `Token` result; this envelope has
no `message` field. -/
structure PostTokenRsp where
  success : Bool
  result : Token
deriving DecidableEq

/-- `NodeDetails`. -/
structure NodeDetails where
  id : Nat
  url : String
  name : String
  title : String
  header : String
  footer : String
  avatar : String
  topics : Nat
  created : Int
  last_modified : Int
deriving DecidableEq

/-- `GetNodeRsp`: flattened `Status` plus `NodeDetails`. -/
structure GetNodeRsp where
  status : Status
  result : NodeDetails
deriving DecidableEq

/-- `NodeTopic`: a topic summary.  The source field named after the
markup format (a `u8`) is called `markup` here because its Rust name is
not a legal Lean identifier. -/
structure NodeTopic where
  id : Nat
  title : String
  content : String
  content_rendered : String
  markup : Nat
  url : String
  replies : Nat
  last_reply_by : String
  created : Int
  last_modified : Int
  last_touched : Int
deriving DecidableEq

/-- `GetNodeTopicsRsp`: flattened `Status` plus a list of `NodeTopic`. -/
structure GetNodeTopicsRsp where
  status : Status
  result : List NodeTopic
deriving DecidableEq

/-- `TopicDetails`: flattened `NodeTopic` plus `member` and `node`. -/
structure TopicDetails where
  details : NodeTopic
  member : Member
  node : NodeDetails
deriving DecidableEq

/-- `GetTopicRsp`: flattened `Status` plus `TopicDetails`. -/
structure GetTopicRsp where
  status : Status
  result : TopicDetails
deriving DecidableEq

/-- `TopicReply`. -/
structure TopicReply where
  id : Nat
  content : String
  content_rendered : String
  created : Int
  member : Member
deriving DecidableEq

/-- `GetTopicRepliesRsp`: flattened `Status` plus a list of
`TopicReply`. -/
structure GetTopicRepliesRsp where
  status : Status
  result : List TopicReply
deriving DecidableEq

/-- `Scope`: token scope. -/
inductive Scope where
  | Everything : Scope
  | Regular : Scope

/-- `Scope::as_str`. -/
def Scope.as_str : Scope → String
  | .Everything => "everything"
  | .Regular => "regular"

/-- `Expiration`: token lifetime choice. -/
inductive Expiration where
  | Day30 : Expiration
  | Day60 : Expiration
  | Day90 : Expiration
  | Day180 : Expiration

/-- `Expiration::as_str`. -/
def Expiration.as_str : Expiration → String
  | .Day30 => "2592000"
  | .Day60 => "5184000"
  | .Day90 => "7776000"
  | .Day180 => "15552000"

/-! ### serde-derived JSON decoding

Each `#[derive(Deserialize)]` struct decodes from a JSON object by
field lookup; `#[serde(flatten)]` reads the inner struct's fields from
the same object; unknown fields are ignored; an `Option` field is
`none` when absent or `null`; a missing non-`Option` field is a decode
error. -/

/-- Decode a JSON value as a `bool`. -/
def asBool : Json → Option Bool
  | .bool b => some b
  | _ => none

/-- Decode a JSON value as a string. -/
def asStr : Json → Option String
  | .str s => some s
  | _ => none

/-- Decode a JSON value as an integer in `[lo, hi]`. -/
def asIntIn (lo hi : Int) : Json → Option Int
  | .num n => if lo ≤ n ∧ n ≤ hi then some n else none
  | _ => none

/-- Decode a JSON value as a Rust `u8`. -/
def asU8 (j : Json) : Option Nat := (asIntIn 0 255 j).map Int.toNat

/-- Decode a JSON value as a Rust `u16`. -/
def asU16 (j : Json) : Option Nat := (asIntIn 0 65535 j).map Int.toNat

/-- Decode a JSON value as a Rust `u32`. -/
def asU32 (j : Json) : Option Nat := (asIntIn 0 4294967295 j).map Int.toNat

/-- Decode a JSON value as a Rust `i64`. -/
def asI64 (j : Json) : Option Int := asIntIn (-(2 ^ 63)) (2 ^ 63 - 1) j

/-- Decode a required field of a JSON object. -/
def reqField (o : List (String × Json)) (key : String)
    (f : Json → Option α) : Option α :=
  (jGet o key).bind f

/-- The value an `Option<String>` field decodes to: absent or `null`
yields `none`, a string yields `some`. -/
def optStrVal : Option Json → Option String
  | some (.str s) => some s
  | _ => none

/-- Decode an `Option<String>` field: succeeds on absence, `null`, or a
string; any other JSON value is a decode error. -/
def optStrField (o : List (String × Json)) (key : String) :
    Option (Option String) :=
  match jGet o key with
  | none => some none
  | some .null => some none
  | some (.str s) => some (some s)
  | some _ => none

/-- The value an `Option<i64>` field decodes to. -/
def optI64Val : Option Json → Option Int
  | some (.num n) => some n
  | _ => none

/-- Decode an `Option<i64>` field: succeeds on absence, `null`, or an
in-range integer. -/
def optI64Field (o : List (String × Json)) (key : String) :
    Option (Option Int) :=
  match jGet o key with
  | none => some none
  | some .null => some none
  | some (.num n) => if -(2 ^ 63) ≤ n ∧ n ≤ 2 ^ 63 - 1 then some (some n) else none
  | some _ => none

/-- Decode the flattened `Status` fields from an object. -/
def decodeStatus (o : List (String × Json)) : Option Status := do
  let success ← reqField o "success" asBool
  let message ← reqField o "message" asStr
  pure { success, message }

/-- Decode a `GetNotificationsRsp`. -/
def decodeGetNotificationsRsp : Json → Option GetNotificationsRsp
  | .obj o => (decodeStatus o).map (fun st => { status := st })
  | _ => none

/-- Decode a `DeleteNotificationRsp`. -/
def decodeDeleteNotificationRsp : Json → Option DeleteNotificationRsp
  | .obj o => (decodeStatus o).map (fun st => { status := st })
  | _ => none

/-- Decode a `Member`. -/
def decodeMember : Json → Option Member
  | .obj o => do
    let id ← reqField o "id" asU32
    let username ← reqField o "username" asStr
    let url ← reqField o "url" asStr
    let website ← optStrField o "website"
    let twitter ← optStrField o "twitter"
    let psn ← optStrField o "psn"
    let github ← optStrField o "github"
    let btc ← optStrField o "btc"
    let location ← optStrField o "location"
    let tagline ← optStrField o "tagline"
    let bio ← optStrField o "bio"
    let avatar ← optStrField o "avatar"
    let avatar_mini ← optStrField o "avatar_mini"
    let avatar_normal ← optStrField o "avatar_normal"
    let avatar_large ← optStrField o "avatar_large"
    let created ← reqField o "created" asI64
    let last_modified ← optI64Field o "last_modified"
    pure { id, username, url, website, twitter, psn, github, btc,
           location, tagline, bio, avatar, avatar_mini, avatar_normal,
           avatar_large, created, last_modified }
  | _ => none

/-- Decode a `GetMemberRsp`. -/
def decodeGetMemberRsp : Json → Option GetMemberRsp
  | .obj o => do
    let success ← reqField o "success" asBool
    let result ← reqField o "result" decodeMember
    pure { success, result }
  | _ => none

/-- Decode a `TokenDetails`. -/
def decodeTokenDetails : Json → Option TokenDetails
  | .obj o => do
    let token ← reqField o "token" asStr
    let scope ← reqField o "scope" asStr
    let expiration ← reqField o "expiration" asI64
    let good_for_days ← reqField o "good_for_days" asU8
    let total_used ← reqField o "total_used" asU32
    let last_used ← reqField o "last_used" asI64
    let created ← reqField o "created" asI64
    pure { token, scope, expiration, good_for_days, total_used,
           last_used, created }
  | _ => none

/-- Decode a `GetTokenRsp`. -/
def decodeGetTokenRsp : Json → Option GetTokenRsp
  | .obj o => do
    let status ← decodeStatus o
    let result ← reqField o "result" decodeTokenDetails
    pure { status, result }
  | _ => none

/-- Decode a `Token`. -/
def decodeToken : Json → Option Token
  | .obj o => do
    let token ← reqField o "token" asStr
    pure { token }
  | _ => none

/-- Decode a `PostTokenRsp`. -/
def decodePostTokenRsp : Json → Option PostTokenRsp
  | .obj o => do
    let success ← reqField o "success" asBool
    let result ← reqField o "result" decodeToken
    pure { success, result }
  | _ => none

/-- Decode a `NodeDetails`. -/
def decodeNodeDetails : Json → Option NodeDetails
  | .obj o => do
    let id ← reqField o "id" asU16
    let url ← reqField o "url" asStr
    let name ← reqField o "name" asStr
    let title ← reqField o "title" asStr
    let header ← reqField o "header" asStr
    let footer ← reqField o "footer" asStr
    let avatar ← reqField o "avatar" asStr
    let topics ← reqField o "topics" asU32
    let created ← reqField o "created" asI64
    let last_modified ← reqField o "last_modified" asI64
    pure { id, url, name, title, header, footer, avatar, topics,
           created, last_modified }
  | _ => none

/-- Decode a `GetNodeRsp`. -/
def decodeGetNodeRsp : Json → Option GetNodeRsp
  | .obj o => do
    let status ← decodeStatus o
    let result ← reqField o "result" decodeNodeDetails
    pure { status, result }
  | _ => none

/-- Decode the flattened `NodeTopic` fields from an object. -/
def decodeNodeTopicFields (o : List (String × Json)) : Option NodeTopic := do
  let id ← reqField o "id" asU32
  let title ← reqField o "title" asStr
  let content ← reqField o "content" asStr
  let content_rendered ← reqField o "content_rendered" asStr
  let markup ← reqField o "syntax" asU8
  let url ← reqField o "url" asStr
  let replies ← reqField o "replies" asU32
  let last_reply_by ← reqField o "last_reply_by" asStr
  let created ← reqField o "created" asI64
  let last_modified ← reqField o "last_modified" asI64
  let last_touched ← reqField o "last_touched" asI64
  pure { id, title, content, content_rendered, markup, url, replies,
         last_reply_by, created, last_modified, last_touched }

/-- Decode a `NodeTopic`. -/
def decodeNodeTopic : Json → Option NodeTopic
  | .obj o => decodeNodeTopicFields o
  | _ => none

/-- Decode a JSON array elementwise. -/
def decodeList (f : Json → Option α) : Json → Option (List α)
  | .arr elems => elems.mapM f
  | _ => none

/-- Decode a `GetNodeTopicsRsp`. -/
def decodeGetNodeTopicsRsp : Json → Option GetNodeTopicsRsp
  | .obj o => do
    let status ← decodeStatus o
    let result ← reqField o "result" (decodeList decodeNodeTopic)
    pure { status, result }
  | _ => none

/-- Decode a `TopicDetails` (flattened `NodeTopic` plus `member` and
`node` sub-objects). -/
def decodeTopicDetails : Json → Option TopicDetails
  | .obj o => do
    let details ← decodeNodeTopicFields o
    let member ← reqField o "member" decodeMember
    let node ← reqField o "node" decodeNodeDetails
    pure { details, member, node }
  | _ => none

/-- Decode a `GetTopicRsp`. -/
def decodeGetTopicRsp : Json → Option GetTopicRsp
  | .obj o => do
    let status ← decodeStatus o
    let result ← reqField o "result" decodeTopicDetails
    pure { status, result }
  | _ => none

/-- Decode a `TopicReply`. -/
def decodeTopicReply : Json → Option TopicReply
  | .obj o => do
    let id ← reqField o "id" asU32
    let content ← reqField o "content" asStr
    let content_rendered ← reqField o "content_rendered" asStr
    let created ← reqField o "created" asI64
    let member ← reqField o "member" decodeMember
    pure { id, content, content_rendered, created, member }
  | _ => none

/-- Decode a `GetTopicRepliesRsp`. -/
def decodeGetTopicRepliesRsp : Json → Option GetTopicRepliesRsp
  | .obj o => do
    let status ← decodeStatus o
    let result ← reqField o "result" (decodeList decodeTopicReply)
    pure { status, result }
  | _ => none

/-! ### Request construction -/

/-- HTTP methods used by the client. -/
inductive Method where
  | get : Method
  | post : Method
  | delete : Method
deriving DecidableEq

/-- An outgoing HTTP request as the client builds it: method, URL,
query parameters (numeric, as the only query parameter used is the
page number), optional JSON body.  The bearer header is attached by the
transport and is the same for every request. -/
structure Request where
  method : Method
  url : String
  query : List (String × Nat)
  body : Option Json

/-- The request built by `Client::get_notifications` (lines 78–86):
the page is coerced to 1 when `page <= 0` (for the `u32` page this
means `page == 0`), then sent as the `p` query parameter. -/
def notificationsRequest (req_page : Nat) : Request :=
  let page := if req_page ≤ 0 then 1 else req_page
  { method := .get
    url := V2EX_API_DOMAIN ++ "/notifications"
    query := [("p", page)]
    body := none }

/-- The request built by `Client::delete_notification`. -/
def deleteNotificationRequest (notification_id : Nat) : Request :=
  { method := .delete
    url := V2EX_API_DOMAIN ++ "/notifications/" ++ toString notification_id
    query := []
    body := none }

/-- The request built by `Client::get_node_topics` (lines 183–191),
with the same page coercion. -/
def nodeTopicsRequest (node_name : String) (req_page : Nat) : Request :=
  let page := if req_page ≤ 0 then 1 else req_page
  { method := .get
    url := V2EX_API_DOMAIN ++ "/nodes/" ++ node_name ++ "/topics"
    query := [("p", page)]
    body := none }

/-- The request built by `Client::get_topic_replies` (lines 220–228),
with the same page coercion. -/
def topicRepliesRequest (topic_id : Nat) (req_page : Nat) : Request :=
  let page := if req_page ≤ 0 then 1 else req_page
  { method := .get
    url := V2EX_API_DOMAIN ++ "/topics/" ++ toString topic_id ++ "/replies"
    query := [("p", page)]
    body := none }

/-- `PostTokenReq`. -/
structure PostTokenReq where
  scope : Scope
  expiration : Expiration

/-- The JSON body built by `Client::post_token` (lines 147–153): a map
with string values for `scope` and `expiration`.  The Rust `HashMap`
iterates in unspecified order; the JSON object is modelled by its
key-value association. -/
def postTokenBody (req : PostTokenReq) : Json :=
  .obj [("scope", .str req.scope.as_str),
        ("expiration", .str req.expiration.as_str)]

/-- The request built by `Client::post_token`. -/
def postTokenRequest (req : PostTokenReq) : Request :=
  { method := .post
    url := V2EX_API_DOMAIN ++ "/tokens"
    query := []
    body := some (postTokenBody req) }

/-! ### The executor pattern -/

/-- A received HTTP response at the interface the client consumes:
the header collection and the body, already split from the wire.  The
body is a JSON document; a body that is not valid JSON, or whose JSON
does not fit the schema, is a decode failure in `decodeBody` below. -/
structure HttpResponse where
  headers : HeaderMap
  body : Json

/-- The failure categories an endpoint method's `Result` can carry:
transport failure (`execute(req).await?`) and body decode failure
(`serde_json::from_slice(&bytes)?`).  Application-level
`success:false` bodies are not failures. -/
inductive ApiError where
  | transport : ApiError
  | decode : ApiError
deriving DecidableEq

/-- The shared tail of every endpoint method (e.g. lines 90–95 of
`get_notifications`): propagate a transport failure unchanged, else
run `set_rate` on the response headers FIRST, then decode the body,
returning the decoded value or a decode failure.  Every one of the
nine endpoint methods instantiates this with its response decoder. -/
def execute (decodeBody : Json → Option α) (c : Client)
    (exchange : Except Unit HttpResponse) :
    Client × Except ApiError α :=
  match exchange with
  | .error _ => (c, .error .transport)
  | .ok rsp =>
    let c := c.set_rate rsp.headers
    match decodeBody rsp.body with
    | some body => (c, .ok body)
    | none => (c, .error .decode)

/-- `Client::get_notifications`, response side. -/
def get_notifications_call (c : Client) (exchange : Except Unit HttpResponse) :
    Client × Except ApiError GetNotificationsRsp :=
  execute decodeGetNotificationsRsp c exchange

/-- `Client::delete_notification`, response side. -/
def delete_notification_call (c : Client) (exchange : Except Unit HttpResponse) :
    Client × Except ApiError DeleteNotificationRsp :=
  execute decodeDeleteNotificationRsp c exchange

/-- `Client::get_member`, response side. -/
def get_member_call (c : Client) (exchange : Except Unit HttpResponse) :
    Client × Except ApiError GetMemberRsp :=
  execute decodeGetMemberRsp c exchange

/-- `Client::get_token`, response side. -/
def get_token_call (c : Client) (exchange : Except Unit HttpResponse) :
    Client × Except ApiError GetTokenRsp :=
  execute decodeGetTokenRsp c exchange

/-- `Client::post_token`, response side. -/
def post_token_call (c : Client) (exchange : Except Unit HttpResponse) :
    Client × Except ApiError PostTokenRsp :=
  execute decodePostTokenRsp c exchange

/-- `Client::get_node`, response side. -/
def get_node_call (c : Client) (exchange : Except Unit HttpResponse) :
    Client × Except ApiError GetNodeRsp :=
  execute decodeGetNodeRsp c exchange

/-- `Client::get_node_topics`, response side. -/
def get_node_topics_call (c : Client) (exchange : Except Unit HttpResponse) :
    Client × Except ApiError GetNodeTopicsRsp :=
  execute decodeGetNodeTopicsRsp c exchange

/-- `Client::get_topic`, response side. -/
def get_topic_call (c : Client) (exchange : Except Unit HttpResponse) :
    Client × Except ApiError GetTopicRsp :=
  execute decodeGetTopicRsp c exchange

/-- `Client::get_topic_replies`, response side. -/
def get_topic_replies_call (c : Client) (exchange : Except Unit HttpResponse) :
    Client × Except ApiError GetTopicRepliesRsp :=
  execute decodeGetTopicRepliesRsp c exchange

/-! ### Endpoint response envelopes -/

/-- The nine endpoint methods of `Client`. -/
inductive Endpoint where
  | get_notifications : Endpoint
  | delete_notification : Endpoint
  | get_member : Endpoint
  | get_token : Endpoint
  | post_token : Endpoint
  | get_node : Endpoint
  | get_node_topics : Endpoint
  | get_topic : Endpoint
  | get_topic_replies : Endpoint
deriving DecidableEq

/-- The top-level JSON keys of each endpoint's response schema, read
off the struct declarations with `#[serde(flatten)]` expanded: a
flattened `Status` contributes `success` and `message`;
`PostTokenRsp` and `GetMemberRsp` declare a bare `success` plus
`result` and carry no `message` field. -/
def rspFields : Endpoint → List String
  | .get_notifications => ["success", "message"]
  | .delete_notification => ["success", "message"]
  | .get_member => ["success", "result"]
  | .get_token => ["success", "message", "result"]
  | .post_token => ["success", "result"]
  | .get_node => ["success", "message", "result"]
  | .get_node_topics => ["success", "message", "result"]
  | .get_topic => ["success", "message", "result"]
  | .get_topic_replies => ["success", "message", "result"]

/-! ### Characterisation of `set_rate` -/

/-- `set_limit` writes the parsed `X-Rate-Limit-Limit` value to the
`limit` cell, keeping the old value on absence or parse failure. -/
theorem Client.set_limit_limit (c : Client) (h : HeaderMap) :
    (c.set_limit h).limit
      = ((hmGet h "X-Rate-Limit-Limit").bind parseU16).getD c.limit := by
  simp only [Client.set_limit]
  cases e : hmGet h "X-Rate-Limit-Limit" with
  | none => simp [e]
  | some v => cases e2 : parseU16 v <;> simp [e, e2]

/-- `set_limit` leaves the `remaining` cell untouched. -/
theorem Client.set_limit_remaining (c : Client) (h : HeaderMap) :
    (c.set_limit h).remaining = c.remaining := by
  simp only [Client.set_limit]
  cases e : hmGet h "X-Rate-Limit-Limit" with
  | none => simp [e]
  | some v => cases e2 : parseU16 v <;> simp [e, e2]

/-- `set_limit` leaves the `reset` cell untouched. -/
theorem Client.set_limit_reset (c : Client) (h : HeaderMap) :
    (c.set_limit h).reset = c.reset := by
  simp only [Client.set_limit]
  cases e : hmGet h "X-Rate-Limit-Limit" with
  | none => simp [e]
  | some v => cases e2 : parseU16 v <;> simp [e, e2]

/-- `set_remaining` writes the parsed `X-Rate-Limit-Remaining` value to
the `remaining` cell, keeping the old value otherwise. -/
theorem Client.set_remaining_remaining (c : Client) (h : HeaderMap) :
    (c.set_remaining h).remaining
      = ((hmGet h "X-Rate-Limit-Remaining").bind parseU16).getD c.remaining := by
  simp only [Client.set_remaining]
  cases e : hmGet h "X-Rate-Limit-Remaining" with
  | none => simp [e]
  | some v => cases e2 : parseU16 v <;> simp [e, e2]

/-- `set_remaining` leaves the `limit` cell untouched. -/
theorem Client.set_remaining_limit (c : Client) (h : HeaderMap) :
    (c.set_remaining h).limit = c.limit := by
  simp only [Client.set_remaining]
  cases e : hmGet h "X-Rate-Limit-Remaining" with
  | none => simp [e]
  | some v => cases e2 : parseU16 v <;> simp [e, e2]

/-- `set_remaining` leaves the `reset` cell untouched. -/
theorem Client.set_remaining_reset (c : Client) (h : HeaderMap) :
    (c.set_remaining h).reset = c.reset := by
  simp only [Client.set_remaining]
  cases e : hmGet h "X-Rate-Limit-Remaining" with
  | none => simp [e]
  | some v => cases e2 : parseU16 v <;> simp [e, e2]

/-- `set_reset` writes the parsed `X-Rate-Limit-Reset` value to the
`reset` cell, keeping the old value otherwise. -/
theorem Client.set_reset_reset (c : Client) (h : HeaderMap) :
    (c.set_reset h).reset
      = ((hmGet h "X-Rate-Limit-Reset").bind parseI64).getD c.reset := by
  simp only [Client.set_reset]
  cases e : hmGet h "X-Rate-Limit-Reset" with
  | none => simp [e]
  | some v => cases e2 : parseI64 v <;> simp [e, e2]

/-- `set_reset` leaves the `limit` cell untouched. -/
theorem Client.set_reset_limit (c : Client) (h : HeaderMap) :
    (c.set_reset h).limit = c.limit := by
  simp only [Client.set_reset]
  cases e : hmGet h "X-Rate-Limit-Reset" with
  | none => simp [e]
  | some v => cases e2 : parseI64 v <;> simp [e, e2]

/-- `set_reset` leaves the `remaining` cell untouched. -/
theorem Client.set_reset_remaining (c : Client) (h : HeaderMap) :
    (c.set_reset h).remaining = c.remaining := by
  simp only [Client.set_reset]
  cases e : hmGet h "X-Rate-Limit-Reset" with
  | none => simp [e]
  | some v => cases e2 : parseI64 v <;> simp [e, e2]

/-- After `set_rate`, the `limit` cell holds the parsed
`X-Rate-Limit-Limit` value, or its previous value when the header is
absent or unparseable. -/
theorem Client.set_rate_limit (c : Client) (h : HeaderMap) :
    (c.set_rate h).limit
      = ((hmGet h "X-Rate-Limit-Limit").bind parseU16).getD c.limit := by
  unfold Client.set_rate
  rw [Client.set_reset_limit, Client.set_remaining_limit, Client.set_limit_limit]

/-- After `set_rate`, the `remaining` cell holds the parsed
`X-Rate-Limit-Remaining` value, or its previous value. -/
theorem Client.set_rate_remaining (c : Client) (h : HeaderMap) :
    (c.set_rate h).remaining
      = ((hmGet h "X-Rate-Limit-Remaining").bind parseU16).getD c.remaining := by
  unfold Client.set_rate
  rw [Client.set_reset_remaining, Client.set_remaining_remaining,
      Client.set_limit_remaining]

/-- After `set_rate`, the `reset` cell holds the parsed
`X-Rate-Limit-Reset` value, or its previous value. -/
theorem Client.set_rate_reset (c : Client) (h : HeaderMap) :
    (c.set_rate h).reset
      = ((hmGet h "X-Rate-Limit-Reset").bind parseI64).getD c.reset := by
  unfold Client.set_rate
  rw [Client.set_reset_reset]
  rw [Client.set_remaining_reset, Client.set_limit_reset]

/-! ### Claims -/

/-- C1: when a response carries all three rate-limit headers with
values parseable into the cells' numeric types (`u16`, `u16`, `i64`),
after `set_rate` the `limit`, `remaining` and `reset` cells equal the
parsed header values exactly. -/
theorem set_rate_all_headers_exact (c : Client) (h : HeaderMap)
    (vl vr vt : String) (l r : Nat) (t : Int)
    (hl : hmGet h "X-Rate-Limit-Limit" = some vl)
    (hlp : parseU16 vl = some l)
    (hr : hmGet h "X-Rate-Limit-Remaining" = some vr)
    (hrp : parseU16 vr = some r)
    (ht : hmGet h "X-Rate-Limit-Reset" = some vt)
    (htp : parseI64 vt = some t) :
    (c.set_rate h).limit = l ∧ (c.set_rate h).remaining = r
      ∧ (c.set_rate h).reset = t := by
  rw [Client.set_rate_limit, Client.set_rate_remaining, Client.set_rate_reset,
      hl, hr, ht]
  simp [hlp, hrp, htp]

/-- Witness for C1: the spec's scenario headers 600/599/3600 on a fresh
client. -/
theorem set_rate_all_headers_exact_witness :
    ((Client.new "tok").set_rate
        [("X-Rate-Limit-Limit", "600"), ("X-Rate-Limit-Remaining", "599"),
         ("X-Rate-Limit-Reset", "3600")]).limit = 600
    ∧ ((Client.new "tok").set_rate
        [("X-Rate-Limit-Limit", "600"), ("X-Rate-Limit-Remaining", "599"),
         ("X-Rate-Limit-Reset", "3600")]).remaining = 599
    ∧ ((Client.new "tok").set_rate
        [("X-Rate-Limit-Limit", "600"), ("X-Rate-Limit-Remaining", "599"),
         ("X-Rate-Limit-Reset", "3600")]).reset = 3600 :=
  set_rate_all_headers_exact (Client.new "tok") _ "600" "599" "3600" 600 599 3600
    (by decide) (by decide) (by decide) (by decide) (by decide) (by decide)

/-- C2: per-cell frame property of `set_rate`: a cell whose header is
absent or whose value fails to parse into the cell's type (for `u16`
cells this includes integers above 65535) keeps its previous value,
while each other cell whose own header parses is still updated. -/
theorem set_rate_per_cell_frame (c : Client) (h : HeaderMap) :
    ((hmGet h "X-Rate-Limit-Limit").bind parseU16 = none →
      (c.set_rate h).limit = c.limit)
    ∧ ((hmGet h "X-Rate-Limit-Remaining").bind parseU16 = none →
      (c.set_rate h).remaining = c.remaining)
    ∧ ((hmGet h "X-Rate-Limit-Reset").bind parseI64 = none →
      (c.set_rate h).reset = c.reset)
    ∧ (∀ l, (hmGet h "X-Rate-Limit-Limit").bind parseU16 = some l →
      (c.set_rate h).limit = l)
    ∧ (∀ r, (hmGet h "X-Rate-Limit-Remaining").bind parseU16 = some r →
      (c.set_rate h).remaining = r)
    ∧ (∀ t, (hmGet h "X-Rate-Limit-Reset").bind parseI64 = some t →
      (c.set_rate h).reset = t) := by
  refine ⟨fun e => ?_, fun e => ?_, fun e => ?_,
          fun l e => ?_, fun r e => ?_, fun t e => ?_⟩ <;>
    simp [Client.set_rate_limit, Client.set_rate_remaining,
          Client.set_rate_reset, e]

/-- Witness for C2: limit header out of `u16` range (70000) leaves the
`limit` cell at its old value 600; the remaining header still updates
its own cell to 59; the reset header is absent, so `reset` keeps 7. -/
theorem set_rate_per_cell_frame_witness :
    ((⟨600, 3, 7⟩ : Client).set_rate
        [("X-Rate-Limit-Limit", "70000"),
         ("X-Rate-Limit-Remaining", "59")]).limit = 600
    ∧ ((⟨600, 3, 7⟩ : Client).set_rate
        [("X-Rate-Limit-Limit", "70000"),
         ("X-Rate-Limit-Remaining", "59")]).remaining = 59
    ∧ ((⟨600, 3, 7⟩ : Client).set_rate
        [("X-Rate-Limit-Limit", "70000"),
         ("X-Rate-Limit-Remaining", "59")]).reset = 7 :=
  ⟨(set_rate_per_cell_frame ⟨600, 3, 7⟩ _).1 (by decide),
   (set_rate_per_cell_frame ⟨600, 3, 7⟩ _).2.2.2.2.1 59 (by decide),
   (set_rate_per_cell_frame ⟨600, 3, 7⟩ _).2.2.1 (by decide)⟩

/-- C10: a freshly constructed client has all three tracker cells
zero-initialised. -/
theorem client_new_cells_zero (token : String) :
    (Client.new token).limit = 0 ∧ (Client.new token).remaining = 0
      ∧ (Client.new token).reset = 0 :=
  ⟨rfl, rfl, rfl⟩

/-- C4: in every paginated request builder the `p` query parameter is 1
when the input page is ≤ 0, and the input page unchanged when it is
≥ 1. -/
theorem paginated_page_coercion (page : Nat) (node_name : String)
    (topic_id : Nat) :
    (page ≤ 0 →
      (notificationsRequest page).query = [("p", 1)]
      ∧ (nodeTopicsRequest node_name page).query = [("p", 1)]
      ∧ (topicRepliesRequest topic_id page).query = [("p", 1)])
    ∧ (1 ≤ page →
      (notificationsRequest page).query = [("p", page)]
      ∧ (nodeTopicsRequest node_name page).query = [("p", page)]
      ∧ (topicRepliesRequest topic_id page).query = [("p", page)]) := by
  constructor
  · intro hp
    have h0 : page = 0 := Nat.le_zero.mp hp
    subst h0
    exact ⟨rfl, rfl, rfl⟩
  · intro hp
    have h0 : ¬ page ≤ 0 := by omega
    simp [notificationsRequest, nodeTopicsRequest, topicRepliesRequest, h0]

/-- Witness for C4: page 0 is coerced to 1, page 5 passes through. -/
theorem paginated_page_coercion_witness :
    (notificationsRequest 0).query = [("p", 1)]
    ∧ (nodeTopicsRequest "rust" 0).query = [("p", 1)]
    ∧ (topicRepliesRequest 1029068 5).query = [("p", 5)] :=
  ⟨((paginated_page_coercion 0 "rust" 1029068).1 (by decide)).1,
   ((paginated_page_coercion 0 "rust" 1029068).1 (by decide)).2.1,
   ((paginated_page_coercion 5 "rust" 1029068).2 (by decide)).2.2⟩

/-- C3: on every well-formed HTTP exchange the executor pattern shared
by all nine endpoint methods updates the tracker from the response
headers first, so the resulting client state is `set_rate` of the
headers whatever the body holds, and a body that fails to decode
yields a decode failure while that header update is kept (not rolled
back). -/
theorem tracker_updated_before_decode {α : Type} (decodeBody : Json → Option α)
    (c : Client) (rsp : HttpResponse) :
    (execute decodeBody c (.ok rsp)).1 = c.set_rate rsp.headers
    ∧ (decodeBody rsp.body = none →
        (execute decodeBody c (.ok rsp)).2 = .error .decode) := by
  constructor
  · cases e : decodeBody rsp.body <;> simp [execute, e]
  · intro hd
    simp [execute, hd]

/-- Witness for C3: a notifications call whose body is not an object
fails to decode, yet the rate-limit header written by that response is
visible afterwards. -/
theorem tracker_updated_before_decode_witness :
    (get_notifications_call (Client.new "tok")
        (.ok ⟨[("X-Rate-Limit-Limit", "600")], Json.null⟩)).1
      = (Client.new "tok").set_rate [("X-Rate-Limit-Limit", "600")]
    ∧ (get_notifications_call (Client.new "tok")
        (.ok ⟨[("X-Rate-Limit-Limit", "600")], Json.null⟩)).2
      = .error .decode :=
  ⟨(tracker_updated_before_decode decodeGetNotificationsRsp (Client.new "tok")
      ⟨[("X-Rate-Limit-Limit", "600")], Json.null⟩).1,
   (tracker_updated_before_decode decodeGetNotificationsRsp (Client.new "tok")
      ⟨[("X-Rate-Limit-Limit", "600")], Json.null⟩).2 rfl⟩

/-- C7: for every endpoint method, a response body that decodes into
the expected schema but whose embedded status has `success = false` is
still returned as the `Ok` outcome carrying that status, never turned
into the failure outcome: first generically for the executor tail
shared by all nine methods (any decoded body is returned `Ok`), then
for each of the nine endpoint methods with its schema's own success
flag, and finally the converse taxonomy — the error outcome arises
only from a body that failed to decode or from a transport failure. -/
theorem app_level_failure_is_ok :
    (∀ {α : Type} (decodeBody : Json → Option α) (c : Client)
        (rsp : HttpResponse) (b : α), decodeBody rsp.body = some b →
        (execute decodeBody c (.ok rsp)).2 = .ok b)
    ∧ (∀ (c : Client) (rsp : HttpResponse) b,
        decodeGetNotificationsRsp rsp.body = some b →
        b.status.success = false →
        (get_notifications_call c (.ok rsp)).2 = .ok b)
    ∧ (∀ (c : Client) (rsp : HttpResponse) b,
        decodeDeleteNotificationRsp rsp.body = some b →
        b.status.success = false →
        (delete_notification_call c (.ok rsp)).2 = .ok b)
    ∧ (∀ (c : Client) (rsp : HttpResponse) b,
        decodeGetMemberRsp rsp.body = some b →
        b.success = false →
        (get_member_call c (.ok rsp)).2 = .ok b)
    ∧ (∀ (c : Client) (rsp : HttpResponse) b,
        decodeGetTokenRsp rsp.body = some b →
        b.status.success = false →
        (get_token_call c (.ok rsp)).2 = .ok b)
    ∧ (∀ (c : Client) (rsp : HttpResponse) b,
        decodePostTokenRsp rsp.body = some b →
        b.success = false →
        (post_token_call c (.ok rsp)).2 = .ok b)
    ∧ (∀ (c : Client) (rsp : HttpResponse) b,
        decodeGetNodeRsp rsp.body = some b →
        b.status.success = false →
        (get_node_call c (.ok rsp)).2 = .ok b)
    ∧ (∀ (c : Client) (rsp : HttpResponse) b,
        decodeGetNodeTopicsRsp rsp.body = some b →
        b.status.success = false →
        (get_node_topics_call c (.ok rsp)).2 = .ok b)
    ∧ (∀ (c : Client) (rsp : HttpResponse) b,
        decodeGetTopicRsp rsp.body = some b →
        b.status.success = false →
        (get_topic_call c (.ok rsp)).2 = .ok b)
    ∧ (∀ (c : Client) (rsp : HttpResponse) b,
        decodeGetTopicRepliesRsp rsp.body = some b →
        b.status.success = false →
        (get_topic_replies_call c (.ok rsp)).2 = .ok b)
    ∧ (∀ {α : Type} (decodeBody : Json → Option α) (c : Client)
        (rsp : HttpResponse) (e : ApiError),
        (execute decodeBody c (.ok rsp)).2 = .error e →
        decodeBody rsp.body = none ∧ e = .decode)
    ∧ (∀ {α : Type} (decodeBody : Json → Option α) (c : Client),
        (execute decodeBody c (.error ())).2 = .error .transport) := by
  refine ⟨?_, ?_, ?_, ?_, ?_, ?_, ?_, ?_, ?_, ?_, ?_, ?_⟩
  · intro α d c rsp b hdec
    simp [execute, hdec]
  · intro c rsp b hdec _
    simp [get_notifications_call, execute, hdec]
  · intro c rsp b hdec _
    simp [delete_notification_call, execute, hdec]
  · intro c rsp b hdec _
    simp [get_member_call, execute, hdec]
  · intro c rsp b hdec _
    simp [get_token_call, execute, hdec]
  · intro c rsp b hdec _
    simp [post_token_call, execute, hdec]
  · intro c rsp b hdec _
    simp [get_node_call, execute, hdec]
  · intro c rsp b hdec _
    simp [get_node_topics_call, execute, hdec]
  · intro c rsp b hdec _
    simp [get_topic_call, execute, hdec]
  · intro c rsp b hdec _
    simp [get_topic_replies_call, execute, hdec]
  · intro α d c rsp e herr
    cases hd : d rsp.body with
    | none =>
      refine ⟨rfl, ?_⟩
      simp [execute, hd] at herr
      exact herr.symm
    | some b =>
      simp [execute, hd] at herr
  · intro α d c
    rfl

/-- Witness for C7: a well-formed `success:false` node response decodes
and is returned as `Ok` by `get_node`. -/
theorem app_level_failure_is_ok_witness :
    (get_node_call (Client.new "tok")
      (.ok ⟨[], Json.obj [("success", Json.bool false),
        ("message", Json.str "node not found"),
        ("result", Json.obj [("id", Json.num 1), ("url", Json.str "u"),
          ("name", Json.str "n"), ("title", Json.str "t"),
          ("header", Json.str "h"), ("footer", Json.str "f"),
          ("avatar", Json.str "a"), ("topics", Json.num 2),
          ("created", Json.num 3), ("last_modified", Json.num 4)])]⟩)).2
    = .ok ⟨⟨false, "node not found"⟩, ⟨1, "u", "n", "t", "h", "f", "a", 2, 3, 4⟩⟩ :=
  app_level_failure_is_ok.2.2.2.2.2.2.1 (Client.new "tok") _
    ⟨⟨false, "node not found"⟩, ⟨1, "u", "n", "t", "h", "f", "a", 2, 3, 4⟩⟩
    (by rfl) rfl

/-- C5: the token-creation request body maps scope `Regular` to the
string `regular` and expiration `Day30` to the string `2592000` (with
`Everything`, `Day60`, `Day90`, `Day180` mapping to their wire
strings), and a `success:true` token response decodes to `success =
true` with token `abc123`. -/
theorem post_token_roundtrip :
    postTokenBody ⟨Scope.Regular, Expiration.Day30⟩
      = Json.obj [("scope", Json.str "regular"),
                  ("expiration", Json.str "2592000")]
    ∧ Scope.as_str Scope.Everything = "everything"
    ∧ Expiration.as_str Expiration.Day60 = "5184000"
    ∧ Expiration.as_str Expiration.Day90 = "7776000"
    ∧ Expiration.as_str Expiration.Day180 = "15552000"
    ∧ decodePostTokenRsp (Json.obj [("success", Json.bool true),
        ("result", Json.obj [("token", Json.str "abc123")])])
      = some ⟨true, ⟨"abc123"⟩⟩ :=
  ⟨rfl, rfl, rfl, rfl, rfl, rfl⟩

/-- C6 counterexample: the token-creation response schema
(`PostTokenRsp`) exposes `success` but carries no `message` field, so
not every endpoint's schema embeds the full `Status` envelope. -/
theorem post_token_envelope_lacks_message :
    "success" ∈ rspFields Endpoint.post_token
    ∧ "message" ∉ rspFields Endpoint.post_token := by
  decide

/-- C6 amended: every endpoint's response schema exposes a `success`
boolean, and every endpoint except token-creation (`PostTokenRsp`) and
member-profile (`GetMemberRsp`) — whose envelopes are bare `success`
plus `result` — also exposes the `message` string of the common
`Status` envelope. -/
theorem envelope_fields (e : Endpoint) :
    "success" ∈ rspFields e
    ∧ (e = Endpoint.post_token ∨ e = Endpoint.get_member
        ∨ "message" ∈ rspFields e) := by
  cases e <;> decide

/-- An `Option<String>` field position is well-formed when absent,
`null`, or a string. -/
def OptStrOk (x : Option Json) : Prop :=
  x = none ∨ x = some Json.null ∨ ∃ s, x = some (Json.str s)

/-- An `Option<i64>` field position is well-formed when absent, `null`,
or an in-range integer. -/
def OptI64Ok (x : Option Json) : Prop :=
  x = none ∨ x = some Json.null
    ∨ ∃ n : Int, x = some (Json.num n) ∧ -(2 ^ 63) ≤ n ∧ n ≤ 2 ^ 63 - 1

/-- On a well-formed `Option<String>` field position, decoding succeeds
and yields `optStrVal` of the looked-up value. -/
theorem optStrField_of_ok (o : List (String × Json)) (k : String)
    (h : OptStrOk (jGet o k)) :
    optStrField o k = some (optStrVal (jGet o k)) := by
  rcases h with h | h | ⟨s, h⟩ <;> simp [optStrField, optStrVal, h]

/-- On a well-formed `Option<i64>` field position, decoding succeeds
and yields `optI64Val` of the looked-up value. -/
theorem optI64Field_of_ok (o : List (String × Json)) (k : String)
    (h : OptI64Ok (jGet o k)) :
    optI64Field o k = some (optI64Val (jGet o k)) := by
  rcases h with h | h | ⟨n, h, h1, h2⟩
  · simp [optI64Field, optI64Val, h]
  · simp [optI64Field, optI64Val, h]
  · simp [optI64Field, optI64Val, h]
    omega

/-- A bind whose continuation always fails is a failure. -/
theorem bind_none_forall {α β : Type} (x : Option α) {f : α → Option β}
    (h : ∀ a, f a = none) : x.bind f = none := by
  cases x <;> simp [h]

/-- A required field lookup on an object missing the key fails. -/
theorem reqField_none (o : List (String × Json)) (k : String)
    (f : Json → Option α) (h : jGet o k = none) : reqField o k f = none := by
  simp [reqField, h]

set_option maxHeartbeats 1000000 in
/-- C8: decoding a member profile whose required fields `id`,
`username`, `url`, `created` are present with the right types succeeds
for every combination of the optional fields being absent, `null`, or
a value of the right type, yielding `none` exactly for the absent and
`null` ones; and decoding fails whenever one of the four required
fields is absent. -/
theorem member_decode_optional_fields (o : List (String × Json))
    (i : Int) (u uu : String) (cr : Int)
    (hid : jGet o "id" = some (Json.num i))
    (hi0 : 0 ≤ i) (hi1 : i ≤ 4294967295)
    (hun : jGet o "username" = some (Json.str u))
    (hurl : jGet o "url" = some (Json.str uu))
    (hcr : jGet o "created" = some (Json.num cr))
    (hc0 : -(2 ^ 63) ≤ cr) (hc1 : cr ≤ 2 ^ 63 - 1)
    (hw : OptStrOk (jGet o "website"))
    (htw : OptStrOk (jGet o "twitter"))
    (hps : OptStrOk (jGet o "psn"))
    (hgh : OptStrOk (jGet o "github"))
    (hbt : OptStrOk (jGet o "btc"))
    (hlo : OptStrOk (jGet o "location"))
    (htg : OptStrOk (jGet o "tagline"))
    (hbi : OptStrOk (jGet o "bio"))
    (hav : OptStrOk (jGet o "avatar"))
    (havm : OptStrOk (jGet o "avatar_mini"))
    (havn : OptStrOk (jGet o "avatar_normal"))
    (havl : OptStrOk (jGet o "avatar_large"))
    (hlm : OptI64Ok (jGet o "last_modified")) :
    decodeMember (Json.obj o) = some
      { id := i.toNat, username := u, url := uu,
        website := optStrVal (jGet o "website"),
        twitter := optStrVal (jGet o "twitter"),
        psn := optStrVal (jGet o "psn"),
        github := optStrVal (jGet o "github"),
        btc := optStrVal (jGet o "btc"),
        location := optStrVal (jGet o "location"),
        tagline := optStrVal (jGet o "tagline"),
        bio := optStrVal (jGet o "bio"),
        avatar := optStrVal (jGet o "avatar"),
        avatar_mini := optStrVal (jGet o "avatar_mini"),
        avatar_normal := optStrVal (jGet o "avatar_normal"),
        avatar_large := optStrVal (jGet o "avatar_large"),
        created := cr,
        last_modified := optI64Val (jGet o "last_modified") }
    ∧ (∀ o2, jGet o2 "id" = none → decodeMember (Json.obj o2) = none)
    ∧ (∀ o2, jGet o2 "username" = none → decodeMember (Json.obj o2) = none)
    ∧ (∀ o2, jGet o2 "url" = none → decodeMember (Json.obj o2) = none)
    ∧ (∀ o2, jGet o2 "created" = none → decodeMember (Json.obj o2) = none) := by
  have hw' := optStrField_of_ok o "website" hw
  have htw' := optStrField_of_ok o "twitter" htw
  have hps' := optStrField_of_ok o "psn" hps
  have hgh' := optStrField_of_ok o "github" hgh
  have hbt' := optStrField_of_ok o "btc" hbt
  have hlo' := optStrField_of_ok o "location" hlo
  have htg' := optStrField_of_ok o "tagline" htg
  have hbi' := optStrField_of_ok o "bio" hbi
  have hav' := optStrField_of_ok o "avatar" hav
  have havm' := optStrField_of_ok o "avatar_mini" havm
  have havn' := optStrField_of_ok o "avatar_normal" havn
  have havl' := optStrField_of_ok o "avatar_large" havl
  have hlm' := optI64Field_of_ok o "last_modified" hlm
  have hc0' : (-9223372036854775808 : Int) ≤ cr := by omega
  have hc1' : cr ≤ 9223372036854775807 := by omega
  refine ⟨?_, ?_, ?_, ?_, ?_⟩
  · simp [decodeMember, reqField, hid, hun, hurl, hcr, asU32, asStr, asI64,
      asIntIn, hi0, hi1, hc0', hc1', hw', htw', hps', hgh', hbt', hlo', htg',
      hbi', hav', havm', havn', havl', hlm']
  · intro o2 h2
    simp only [decodeMember, reqField_none o2 "id" asU32 h2]
    rfl
  · intro o2 h2
    simp only [decodeMember]
    apply bind_none_forall
    intro a
    simp only [reqField_none o2 "username" asStr h2]
    rfl
  · intro o2 h2
    simp only [decodeMember]
    iterate 2 (apply bind_none_forall; intro _)
    simp only [reqField_none o2 "url" asStr h2]
    rfl
  · intro o2 h2
    simp only [decodeMember]
    iterate 15 (apply bind_none_forall; intro _)
    simp only [reqField_none o2 "created" asI64 h2]
    rfl

/-- Witness for C8: a profile with `website` null, `github` present,
and every other optional field absent decodes, with `none` for the
missing and `null` ones. -/
theorem member_decode_optional_fields_witness :
    decodeMember (Json.obj
      [("id", Json.num 42), ("username", Json.str "alice"),
       ("url", Json.str "https://www.v2ex.com/u/alice"),
       ("website", Json.null), ("github", Json.str "alice-gh"),
       ("created", Json.num 1000)])
    = some ⟨42, "alice", "https://www.v2ex.com/u/alice", none, none, none,
            some "alice-gh", none, none, none, none, none, none, none, none,
            1000, none⟩ :=
  (member_decode_optional_fields
    [("id", Json.num 42), ("username", Json.str "alice"),
     ("url", Json.str "https://www.v2ex.com/u/alice"),
     ("website", Json.null), ("github", Json.str "alice-gh"),
     ("created", Json.num 1000)]
    42 "alice" "https://www.v2ex.com/u/alice" 1000
    rfl (by decide) (by decide) rfl rfl rfl (by decide) (by decide)
    (Or.inr (Or.inl rfl)) (Or.inl rfl) (Or.inl rfl)
    (Or.inr (Or.inr ⟨"alice-gh", rfl⟩)) (Or.inl rfl) (Or.inl rfl)
    (Or.inl rfl) (Or.inl rfl) (Or.inl rfl) (Or.inl rfl) (Or.inl rfl)
    (Or.inl rfl) (Or.inl rfl)).1

end V2ex
